import Mathlib

/-!
# Verification of the gatebot quiz-pass model

A shallow embedding of the quiz data model and the bot's event handlers
(`gatebot/models.py`, `gatebot/questions.py`, `gatebot/bot.py`), with theorems
about answer immutability, navigation bounds, pass/fail computation, the
restart cooldown, the inactivity timer, admin authorization and question-bank
loading.

Modelling conventions:
* timestamps (`created_at`, `answered_at`, `now`) are integer seconds;
* database rows live in plain lists; a query is a pure function of the list;
* a Python exception is an `Except.error`;
* outbound Telegram calls are reified as `BotAction` values.
-/

/-- A single question of the quiz (`gatebot/questions.py`, class `Question`). -/
structure Question where
  text : String
  options : List String
  answer : Int
deriving Repr, DecidableEq, Inhabited

/-- `Question.validate`: raises `ValueError("answer is out of range")` iff the
correct-answer index is outside `[0, len(options))`. -/
def Question.validate (q : Question) : Except String Unit :=
  if q.answer < 0 ∨ q.answer ≥ (q.options.length : Int) then
    .error "answer is out of range"
  else
    .ok ()

/-- One entry of the parsed questions file: the dict with keys `question`,
`options` and `answer` that `load_questions` reads. -/
structure QuestionDict where
  question : String
  options : List String
  answer : Int
deriving Repr, DecidableEq, Inhabited

/-- The `ValueError` raised by `load_questions`
(`f"Error while parsing question {i + 1}: {q.text!r}"`), carried as the
1-based position together with the offending question's text. -/
structure LoadError where
  position : Nat
  text : String
deriving Repr, DecidableEq

/-- `Question(text=d['question'], options=d['options'], answer=d['answer'])`. -/
def mkQuestion (d : QuestionDict) : Question :=
  { text := d.question, options := d.options, answer := d.answer }

/-- The loop of `load_questions` (`gatebot/questions.py` 27-40) starting at
0-based position `i`: build the question, validate it, abort the whole load
with the 1-based position on the first invalid entry. -/
def load_questions_from (i : Nat) : List QuestionDict → Except LoadError (List Question)
  | [] => .ok []
  | d :: rest =>
    let q := mkQuestion d
    match q.validate with
    | .error _ => .error ⟨i + 1, q.text⟩
    | .ok () => do
        let qs ← load_questions_from (i + 1) rest
        pure (q :: qs)

/-- `load_questions` (`gatebot/questions.py` 19-42), after JSON parsing. -/
def load_questions (ds : List QuestionDict) : Except LoadError (List Question) :=
  load_questions_from 0 ds

/-- Source class `Option` of `gatebot/models.py` (renamed: `Option` is Lean's
option type): one answer option of a quiz item. -/
structure QuizOption where
  index : Nat
  text : String
deriving Repr, DecidableEq, Inhabited

/-- Source class `QuizItem` of `gatebot/models.py`: one question instance
within a pass. `given_answer` and `answered_at` are the nullable columns. -/
structure QuizItem where
  index : Nat
  text : String
  correct_answer : Int
  given_answer : Option Int := none
  answered_at : Option Nat := none
  options : List QuizOption
deriving Repr, DecidableEq, Inhabited

/-- `QuizItem.set_answer` (`models.py` 101-106). Faithful to the source: it
range-checks the answer and then unconditionally overwrites `given_answer`
and `answered_at`; the already-answered guard lives in the caller
(`GateBot.callback_query_answer`). `now` stands for `datetime.utcnow()`. -/
def QuizItem.set_answer (item : QuizItem) (answer : Int) (now : Nat) :
    Except String QuizItem :=
  if answer < 0 ∨ answer ≥ (item.options.length : Int) then
    .error "Answer out of range"
  else
    .ok { item with given_answer := some answer, answered_at := some now }

/-- `QuizItem.is_answered` (`models.py` 108-110): both `given_answer` and
`answered_at` are set (a `datetime` is always truthy, `None` is falsy). -/
def QuizItem.is_answered (item : QuizItem) : Bool :=
  item.given_answer.isSome && item.answered_at.isSome

/-- `QuizItem.is_answered_correctly` (`models.py` 112-114). -/
def QuizItem.is_answered_correctly (item : QuizItem) : Bool :=
  item.is_answered && (some item.correct_answer == item.given_answer)

/-- Source class `QuizPass` of `gatebot/models.py`: one quiz attempt, owning
its items (kept ordered by `QuizItem.index`, as the relationship declares). -/
structure QuizPass where
  id : Nat
  user_id : Int
  correct_required : Int
  current_item_index : Int := 0
  created_at : Nat
  result_shared : Bool := false
  quizitems : List QuizItem
deriving Repr, DecidableEq, Inhabited

/-- `QuizPass.current_item` (`models.py` 36-41): first owned item whose
`index` equals `current_item_index`, else `ValueError`. -/
def QuizPass.current_item (p : QuizPass) : Except String QuizItem :=
  match p.quizitems.find? (fun item => (item.index : Int) == p.current_item_index) with
  | some item => .ok item
  | none => .error "Item index out of range"

/-- `QuizPass.move_to_next` (`models.py` 43-46). -/
def QuizPass.move_to_next (p : QuizPass) : QuizPass :=
  let i := p.current_item_index + 1
  if i ≥ (p.quizitems.length : Int) then { p with current_item_index := 0 }
  else { p with current_item_index := i }

/-- `QuizPass.move_to_prev` (`models.py` 48-51). -/
def QuizPass.move_to_prev (p : QuizPass) : QuizPass :=
  let i := p.current_item_index - 1
  if i < 0 then { p with current_item_index := (p.quizitems.length : Int) - 1 }
  else { p with current_item_index := i }

/-- `QuizPass.is_finished` (`models.py` 53-55): all items answered. -/
def QuizPass.is_finished (p : QuizPass) : Bool :=
  p.quizitems.all (fun item => item.is_answered)

/-- `QuizPass.correct_given` (`models.py` 57-63). -/
def QuizPass.correct_given (p : QuizPass) : Nat :=
  (p.quizitems.filter (fun item => item.is_answered_correctly)).length

/-- `QuizPass.has_passed` (`models.py` 65-67). -/
def QuizPass.has_passed (p : QuizPass) : Bool :=
  decide ((p.correct_given : Int) ≥ p.correct_required)

/-- `QuizPass.last_answer_at` (`models.py` 69-77): maximum `answered_at` over
the answered items, or `none` when no item carries a timestamp. -/
def QuizPass.last_answer_at (p : QuizPass) : Option Nat :=
  (p.quizitems.filterMap (fun item => item.answered_at)).max?

/-- The message templates of `gatebot/messages.py`, each carrying the values
interpolated into it. -/
inductive MessageText where
  | getting_started (questions_total answers_required : Nat)
  | passed (result total : Nat)
  | result_share (user_id : Int) (result total : Nat)
  | failed (result total : Nat) (required : Int) (wait_hours : Nat)
  | unauthorized
  | no_target
  | kicked (target_id : Int) (target_name : String)
  | banned (target_id : Int) (target_name : String)
deriving Repr, DecidableEq

/-- Outbound platform calls issued by `GateBot`, reified as actions.
`display_quizpass` stands for `GateBot._display_quizpass` editing the quiz
message to show the pass's current question. -/
inductive BotAction where
  | send_message (chat_id : Int) (text : MessageText)
  | kick_chat_member (chat_id : Int) (user_id : Int)
  | unban_chat_member (chat_id : Int) (user_id : Int)
  | display_quizpass (message_id : Int) (user_id : Int) (quizpass : QuizPass)
deriving Repr, DecidableEq

/-- The row-picking step of `get_active_quizpass`'s descending `created_at`
ordering: keep the first row seen with maximal `created_at` (the head of a
stable descending sort). -/
def pick_later (best : Option QuizPass) (p : QuizPass) : Option QuizPass :=
  match best with
  | none => some p
  | some q => if q.created_at < p.created_at then some p else some q

/-- `get_active_quizpass` (`models.py` 170-174): the pass rows filtered by
user id, ordered by `created_at` descending and the first taken — modelled as
a left fold with `pick_later`. -/
def get_active_quizpass (passes : List QuizPass) (user_id : Int) : Option QuizPass :=
  (passes.filter (fun p => p.user_id == user_id)).foldl pick_later none

/-- `GateBot.job_kick_if_inactive` (`bot.py` 153-166): when the timer fires,
kick then unban iff the user has no quiz pass at all; otherwise do nothing. -/
def job_kick_if_inactive (passes : List QuizPass) (group_id user_id : Int) :
    List BotAction :=
  match get_active_quizpass passes user_id with
  | none =>
      [.kick_chat_member group_id user_id, .unban_chat_member group_id user_id]
  | some _ => []

/-- `GateBot._is_admin` (`bot.py` 213-215): the platform-reported chat-member
status is `'creator'` (owner) or `'admin'`. -/
def is_admin (status : String) : Bool :=
  status == "creator" || status == "admin"

/-- `session.delete(quizpass)` on the active pass, as done at the end of the
kick/ban commands: the active pass row (with its children, by cascade) is
removed from the store; no row is touched when there is none. -/
def delete_active_quizpass (passes : List QuizPass) (user_id : Int) : List QuizPass :=
  match get_active_quizpass passes user_id with
  | some qp => passes.filter (fun p => p.id != qp.id)
  | none => passes

/-- `GateBot.command_kick` (`bot.py` 217-260). `caller_status` is what the
platform reports for the sender; `target` is `_get_target`'s resolution
(already-parsed id and display name, or `none`). Returns the outbound actions
in order and the pass store after the handler's transaction. -/
def command_kick (passes : List QuizPass) (group_id : Int) (caller_status : String)
    (target : Option (Int × String)) : List BotAction × List QuizPass :=
  if is_admin caller_status = false then
    ([.send_message group_id .unauthorized], passes)
  else
    match target with
    | none => ([.send_message group_id .no_target], passes)
    | some (target_id, target_name) =>
      ([.kick_chat_member group_id target_id,
        .unban_chat_member group_id target_id,
        .send_message group_id (.kicked target_id target_name)],
       delete_active_quizpass passes target_id)

/-- `GateBot.command_ban` (`bot.py` 288-328): like `command_kick` but with no
unban call and the `BANNED` confirmation. -/
def command_ban (passes : List QuizPass) (group_id : Int) (caller_status : String)
    (target : Option (Int × String)) : List BotAction × List QuizPass :=
  if is_admin caller_status = false then
    ([.send_message group_id .unauthorized], passes)
  else
    match target with
    | none => ([.send_message group_id .no_target], passes)
    | some (target_id, target_name) =>
      ([.kick_chat_member group_id target_id,
        .send_message group_id (.banned target_id target_name)],
       delete_active_quizpass passes target_id)

/-- `GateBot._on_start_quiz` (`bot.py` 560-611): whether the user may
start/restart the quiz, paired with the messages sent when they may not.
`now` is in seconds and `wait_hours_on_fail` is `config.WAIT_HOURS_ON_FAIL`.
The remaining wait is reported as `int(math.ceil(wait_seconds / 3600))`, which
for a positive whole number of seconds is `(wait_seconds + 3599) / 3600`.
A finished failed pass without any answer timestamp makes the source compute
`now - None` and raise; that is the `.error` branch. -/
def on_start_quiz (passes : List QuizPass) (user_id : Int) (now : Nat)
    (wait_hours_on_fail : Nat) : Except String (Bool × List BotAction) :=
  match get_active_quizpass passes user_id with
  | some quizpass =>
    if quizpass.is_finished then
      if quizpass.has_passed then
        .ok (false, [.send_message user_id
          (.passed quizpass.correct_given quizpass.quizitems.length)])
      else
        match quizpass.last_answer_at with
        | none => .error "unsupported operand type for subtraction"
        | some t =>
          let time_passed : Int := (now : Int) - (t : Int)
          let time_has_to_pass : Int := (wait_hours_on_fail : Int) * 3600
          if time_passed < time_has_to_pass then
            let wait_seconds : Nat := (time_has_to_pass - time_passed).toNat
            let wait_hours : Nat := (wait_seconds + 3599) / 3600
            .ok (false, [.send_message user_id
              (.failed quizpass.correct_given quizpass.quizitems.length
                quizpass.correct_required wait_hours)])
          else
            .ok (true, [])
    else
      .ok (true, [])
  | none => .ok (true, [])

/-- `GateBot.callback_query_start_quiz` (`bot.py` 363-394): run
`_on_start_quiz`; when it refuses, stop with its messages. Otherwise, when an
unfinished active pass exists, just re-display it; else build a fresh pass
(`new_pass` stands for the `_generate_quizpass` result over the random
question sample), add its rows and display it. Returns the pass store and the
actions. -/
def callback_query_start_quiz (passes : List QuizPass) (user_id : Int)
    (message_id : Int) (now : Nat) (wait_hours_on_fail : Nat)
    (new_pass : QuizPass) : Except String (List QuizPass × List BotAction) := do
  let (res, acts) ← on_start_quiz passes user_id now wait_hours_on_fail
  if res = false then
    pure (passes, acts)
  else
    match get_active_quizpass passes user_id with
    | some quizpass =>
      if quizpass.is_finished = false then
        pure (passes, acts ++ [.display_quizpass message_id user_id quizpass])
      else
        pure (passes ++ [new_pass],
          acts ++ [.display_quizpass message_id user_id new_pass])
    | none =>
      pure (passes ++ [new_pass],
        acts ++ [.display_quizpass message_id user_id new_pass])

/-- The in-place `set_answer` call of `callback_query_answer` (`bot.py`
460-461): mutate the first owned item whose `index` equals the pass's
`current_item_index` (the very object `current_item` returns). -/
def set_answer_on_current (ix : Int) (answer : Int) (now : Nat) :
    List QuizItem → Except String (List QuizItem)
  | [] => .error "Item index out of range"
  | item :: rest =>
    if (item.index : Int) == ix then do
      let item' ← item.set_answer answer now
      pure (item' :: rest)
    else do
      let rest' ← set_answer_on_current ix answer now rest
      pure (item :: rest')

/-- The answer-mutation step of `GateBot.callback_query_answer` (`bot.py`
454-462): read the current item; if it is already answered, leave the pass
untouched; otherwise store the answer on it. -/
def callback_query_answer_step (p : QuizPass) (answer : Int) (now : Nat) :
    Except String QuizPass := do
  let item ← p.current_item
  if item.is_answered then
    pure p
  else do
    let items' ← set_answer_on_current p.current_item_index answer now p.quizitems
    pure { p with quizitems := items' }

/-- One databank row committed by `create_quizpass`. Items and options refer
to their parents positionally (`q_ix`), which is what the source's freshly
committed autoincrement ids establish. -/
inductive DBRow where
  | passRow (user_id : Int) (correct_required : Int)
  | itemRow (index : Nat) (text : String) (correct_answer : Int)
  | optionRow (item_index : Nat) (index : Nat) (text : String)
deriving Repr, DecidableEq

/-- The per-option `session.commit()` calls of `create_quizpass`
(`models.py` 158-165): one commit per option row of item `q_ix`. -/
def option_commits (q_ix : Nat) (option_index : Nat) :
    List String → List (List DBRow)
  | [] => []
  | option_text :: rest =>
    [DBRow.optionRow q_ix option_index option_text] ::
      option_commits q_ix (option_index + 1) rest

/-- The per-item `session.commit()` calls of `create_quizpass`
(`models.py` 148-165): for each question, one commit with its item row, then
one commit per option row. -/
def item_commits (q_ix : Nat) : List Question → List (List DBRow)
  | [] => []
  | question :: rest =>
    [DBRow.itemRow q_ix question.text question.answer] ::
      (option_commits q_ix 0 question.options ++ item_commits (q_ix + 1) rest)

/-- The full ordered sequence of `session.commit()` calls `create_quizpass`
performs (`models.py` 135-167), each with the rows it makes durable: first
the bare pass row, then the item and option rows one by one. -/
def create_quizpass_commits (user_id : Int) (questions : List Question)
    (correct_required : Int) : List (List DBRow) :=
  [DBRow.passRow user_id correct_required] :: item_commits 0 questions

/-- The rows durably visible when the environment fails at 0-based commit
number `k`: the first `k` commits have already been committed, and the
rollback of `GateBot.db_session` (`bot.py` 92-102) discards only the pending
work of the transaction in flight, never the committed rows. -/
def committed_after (commits : List (List DBRow)) (k : Nat) : List DBRow :=
  (commits.take k).flatten

/-- Whether a store holds the quiz-pass row. -/
def has_pass_row (rows : List DBRow) : Bool :=
  rows.any fun r => match r with | .passRow _ _ => true | _ => false

/-- How many item rows a store holds. -/
def item_row_count (rows : List DBRow) : Nat :=
  (rows.filter fun r => match r with | .itemRow _ _ _ => true | _ => false).length

/-- Navigation button presses, as routed to `move_to_next` / `move_to_prev`
by `callback_query_next` / `callback_query_prev`. -/
inductive NavMove where
  | next
  | prev
deriving Repr, DecidableEq

/-- Apply a finite sequence of navigation moves to a pass. -/
def QuizPass.apply_moves (p : QuizPass) : List NavMove → QuizPass
  | [] => p
  | NavMove.next :: ms => p.move_to_next.apply_moves ms
  | NavMove.prev :: ms => p.move_to_prev.apply_moves ms

/-! Concrete fixtures, used to evaluate the theorems on explicit inputs. -/

/-- A two-option answer list. -/
def sampleOptions : List QuizOption := [⟨0, "a"⟩, ⟨1, "b"⟩]

/-- An item answered correctly (answer 0 = correct 0) at time 100. -/
def answeredItem : QuizItem :=
  { index := 0, text := "q1", correct_answer := 0,
    given_answer := some 0, answered_at := some 100, options := sampleOptions }

/-- An item answered wrongly (answer 1 ≠ correct 0) at time 100. -/
def wrongItem : QuizItem :=
  { index := 0, text := "q1", correct_answer := 0,
    given_answer := some 1, answered_at := some 100, options := sampleOptions }

/-- A not-yet-answered item. -/
def unansweredItem : QuizItem :=
  { index := 1, text := "q2", correct_answer := 1, options := sampleOptions }

/-- An unfinished pass of user 7: first item answered, second not. -/
def samplePass : QuizPass :=
  { id := 1, user_id := 7, correct_required := 1, created_at := 50,
    quizitems := [answeredItem, unansweredItem] }

/-- A finished, failed pass of user 8: its one item answered wrongly. -/
def failedPass : QuizPass :=
  { id := 2, user_id := 8, correct_required := 1, created_at := 60,
    quizitems := [wrongItem] }

/-- A pass owning no items at all. -/
def emptyPass : QuizPass :=
  { id := 3, user_id := 9, correct_required := 0, created_at := 70,
    quizitems := [] }

/-- A fresh pass, standing for a `_generate_quizpass` result. -/
def freshPass : QuizPass :=
  { id := 4, user_id := 8, correct_required := 1, created_at := 2000,
    quizitems := [unansweredItem] }

/-- A questions file with an out-of-range entry in second position. -/
def sampleDicts : List QuestionDict :=
  [⟨"q1", ["a", "b"], 0⟩, ⟨"q2", ["a", "b"], 5⟩]

/-! Helper lemmas. -/

/-- Folding `pick_later` from a present accumulator never loses it. -/
theorem pick_foldl_isSome (l : List QuizPass) (q : QuizPass) :
    (l.foldl pick_later (some q)).isSome = true := by
  induction l generalizing q with
  | nil => rfl
  | cons p t ih =>
    rw [List.foldl_cons]
    by_cases h : q.created_at < p.created_at
    · simpa [pick_later, h] using ih p
    · simpa [pick_later, h] using ih q

/-- `get_active_quizpass` finds nothing exactly when the user owns no pass. -/
theorem get_active_quizpass_eq_none_iff (passes : List QuizPass) (uid : Int) :
    get_active_quizpass passes uid = none ↔ ∀ p ∈ passes, p.user_id ≠ uid := by
  unfold get_active_quizpass
  rcases hf : passes.filter (fun p => p.user_id == uid) with _ | ⟨p, t⟩
  · rw [hf]
    constructor
    · intro _ p hp hpu
      have hmem : p ∈ passes.filter (fun q => q.user_id == uid) := by
        simp [List.mem_filter, hp, hpu]
      rw [hf] at hmem
      exact absurd hmem (List.not_mem_nil p)
    · intro _
      rfl
  · rw [hf, List.foldl_cons]
    constructor
    · intro h
      have hs := pick_foldl_isSome t p
      have hstep : pick_later none p = some p := rfl
      rw [hstep] at h
      rw [h] at hs
      exact absurd hs (by simp)
    · intro h
      have hp : p ∈ passes.filter (fun q => q.user_id == uid) := by
        rw [hf]
        exact List.mem_cons_self p t
      have hmf := List.mem_filter.mp hp
      exact absurd (by simpa using hmf.2) (h p hmf.1)

/-- Folding `pick_later` only ever returns the accumulator or a list element. -/
theorem pick_foldl_mem (l : List QuizPass) (acc : Option QuizPass) (q : QuizPass)
    (h : l.foldl pick_later acc = some q) : acc = some q ∨ q ∈ l := by
  induction l generalizing acc with
  | nil => exact Or.inl h
  | cons p t ih =>
    rw [List.foldl_cons] at h
    rcases ih (pick_later acc p) h with h' | h'
    · cases acc with
      | none =>
        right
        have hp : p = q := by simpa [pick_later] using h'
        rw [hp]
        exact List.mem_cons_self q t
      | some r =>
        by_cases hc : r.created_at < p.created_at
        · right
          have hp : p = q := by simpa [pick_later, hc] using h'
          rw [hp]
          exact List.mem_cons_self q t
        · left
          simpa [pick_later, hc] using h'
    · exact Or.inr (List.mem_cons_of_mem p h')

/-- The active pass is one of the stored passes and belongs to the user. -/
theorem get_active_quizpass_mem (passes : List QuizPass) (uid : Int) (qp : QuizPass)
    (h : get_active_quizpass passes uid = some qp) :
    qp ∈ passes ∧ qp.user_id = uid := by
  unfold get_active_quizpass at h
  rcases pick_foldl_mem _ _ _ h with h' | h'
  · exact absurd h' (by simp)
  · have := List.mem_filter.mp h'
    exact ⟨this.1, by simpa using this.2⟩

/-- `move_to_next` never touches the items. -/
theorem move_to_next_quizitems (p : QuizPass) :
    p.move_to_next.quizitems = p.quizitems := by
  by_cases h : (p.current_item_index + 1) ≥ (p.quizitems.length : Int) <;>
    simp [QuizPass.move_to_next, h]

/-- `move_to_prev` never touches the items. -/
theorem move_to_prev_quizitems (p : QuizPass) :
    p.move_to_prev.quizitems = p.quizitems := by
  by_cases h : (p.current_item_index - 1) < (0 : Int) <;>
    simp [QuizPass.move_to_prev, h]

/-- One `move_to_next` keeps the index inside `[0, N)`. -/
theorem move_to_next_index_bounds (p : QuizPass)
    (hN : 1 ≤ p.quizitems.length)
    (h0 : 0 ≤ p.current_item_index)
    (h1 : p.current_item_index < (p.quizitems.length : Int)) :
    0 ≤ p.move_to_next.current_item_index ∧
      p.move_to_next.current_item_index < (p.quizitems.length : Int) := by
  by_cases h : (p.current_item_index + 1) ≥ (p.quizitems.length : Int) <;>
    simp [QuizPass.move_to_next, h] <;> omega

/-- One `move_to_prev` keeps the index inside `[0, N)`. -/
theorem move_to_prev_index_bounds (p : QuizPass)
    (hN : 1 ≤ p.quizitems.length)
    (h0 : 0 ≤ p.current_item_index)
    (h1 : p.current_item_index < (p.quizitems.length : Int)) :
    0 ≤ p.move_to_prev.current_item_index ∧
      p.move_to_prev.current_item_index < (p.quizitems.length : Int) := by
  by_cases h : (p.current_item_index - 1) < (0 : Int) <;>
    simp [QuizPass.move_to_prev, h] <;> omega

/-- C4: for every pass with at least one item whose `current_item_index`
starts in `[0, N)`, any finite sequence of `move_to_next`/`move_to_prev`
presses leaves `current_item_index` in `[0, N)` — incrementing wraps to 0
past the last index, decrementing wraps to the last index below 0 — and the
item list itself is untouched. -/
theorem nav_moves_keep_index_in_range (p : QuizPass) (moves : List NavMove)
    (hN : 1 ≤ p.quizitems.length)
    (h0 : 0 ≤ p.current_item_index)
    (h1 : p.current_item_index < (p.quizitems.length : Int)) :
    0 ≤ (p.apply_moves moves).current_item_index ∧
      (p.apply_moves moves).current_item_index <
        ((p.apply_moves moves).quizitems.length : Int) ∧
      (p.apply_moves moves).quizitems = p.quizitems := by
  induction moves generalizing p with
  | nil => exact ⟨h0, h1, rfl⟩
  | cons m ms ih =>
    cases m with
    | next =>
      have hb := move_to_next_index_bounds p hN h0 h1
      have hq := move_to_next_quizitems p
      have hrec := ih p.move_to_next (by rw [hq]; exact hN) hb.1
        (by rw [hq]; exact hb.2)
      simp only [QuizPass.apply_moves]
      exact ⟨hrec.1, hrec.2.1, by rw [hrec.2.2, hq]⟩
    | prev =>
      have hb := move_to_prev_index_bounds p hN h0 h1
      have hq := move_to_prev_quizitems p
      have hrec := ih p.move_to_prev (by rw [hq]; exact hN) hb.1
        (by rw [hq]; exact hb.2)
      simp only [QuizPass.apply_moves]
      exact ⟨hrec.1, hrec.2.1, by rw [hrec.2.2, hq]⟩

/-- Witness for C4: a concrete 2-item pass, pressing next, next, prev. -/
theorem nav_moves_keep_index_in_range_witness :
    0 ≤ (samplePass.apply_moves
        [NavMove.next, NavMove.next, NavMove.prev]).current_item_index ∧
      (samplePass.apply_moves
          [NavMove.next, NavMove.next, NavMove.prev]).current_item_index <
        ((samplePass.apply_moves
            [NavMove.next, NavMove.next, NavMove.prev]).quizitems.length : Int) ∧
      (samplePass.apply_moves
          [NavMove.next, NavMove.next, NavMove.prev]).quizitems =
        samplePass.quizitems :=
  nav_moves_keep_index_in_range samplePass [NavMove.next, NavMove.next, NavMove.prev]
    (by decide) (by decide) (by decide)

/-- Equality tests on `Option Int` commute. -/
theorem option_beq_comm (a b : Option Int) : (a == b) = (b == a) := by
  by_cases h : a = b
  · rw [h]
  · rw [beq_eq_false_iff_ne.mpr h, beq_eq_false_iff_ne.mpr (Ne.symm h)]

/-- C7: `has_passed` holds exactly when `correct_given ≥ correct_required`;
`correct_given` is the count of answered items whose given answer equals the
correct answer (an unanswered item is never counted correct); and at the
boundary `correct_given = correct_required` the pass counts as passed. -/
theorem has_passed_iff_enough_correct (p : QuizPass) :
    (p.has_passed = true ↔ (p.correct_given : Int) ≥ p.correct_required) ∧
    p.correct_given = (p.quizitems.filter
      (fun item => item.is_answered &&
        (item.given_answer == some item.correct_answer))).length ∧
    (∀ item ∈ p.quizitems, item.is_answered = false →
      item.is_answered_correctly = false) ∧
    ((p.correct_given : Int) = p.correct_required → p.has_passed = true) := by
  refine ⟨by simp [QuizPass.has_passed], ?_, ?_, ?_⟩
  · unfold QuizPass.correct_given
    congr 1
    apply List.filter_congr
    intro item _
    simp only [QuizItem.is_answered_correctly, option_beq_comm]
  · intro item _ h
    simp [QuizItem.is_answered_correctly, h]
  · intro h
    simp [QuizPass.has_passed]
    omega

/-- Witness for C7: the boundary case on a concrete pass whose one correct
answer meets `correct_required = 1` exactly. -/
theorem has_passed_iff_enough_correct_witness : samplePass.has_passed = true :=
  (has_passed_iff_enough_correct samplePass).2.2.2 (by decide)

/-- C10: a pass owning zero items is vacuously finished, has
`correct_given = 0`, and counts as passed whenever `correct_required ≤ 0`;
the guarantee that a pass with no answered item is unfinished needs at least
one item. -/
theorem empty_pass_vacuously_finished (p : QuizPass) :
    (p.quizitems = [] →
      p.is_finished = true ∧ p.correct_given = 0 ∧
        (p.correct_required ≤ 0 → p.has_passed = true)) ∧
    (p.quizitems ≠ [] → (∀ item ∈ p.quizitems, item.is_answered = false) →
      p.is_finished = false) := by
  constructor
  · intro h
    refine ⟨by simp [QuizPass.is_finished, h],
      by simp [QuizPass.correct_given, h], ?_⟩
    intro hr
    simp [QuizPass.has_passed, QuizPass.correct_given, h]
    omega
  · intro hne hall
    rcases hq : p.quizitems with _ | ⟨item, rest⟩
    · exact absurd hq hne
    · have hitem : item.is_answered = false :=
        hall item (by rw [hq]; exact List.mem_cons_self item rest)
      simp [QuizPass.is_finished, hq, hitem]

/-- Witness for C10: the zero-item pass evaluated concretely. -/
theorem empty_pass_vacuously_finished_witness :
    emptyPass.is_finished = true ∧ emptyPass.correct_given = 0 ∧
      (emptyPass.correct_required ≤ 0 → emptyPass.has_passed = true) :=
  (empty_pass_vacuously_finished emptyPass).1 rfl

/-- C1: re-submitting an answer for an already-answered current item is a
silent no-op. When the current item already carries a `given_answer` and an
`answered_at`, the answer step of `callback_query_answer` leaves the pass —
in particular the stored first answer and its timestamp — exactly as it was,
whatever answer value is re-submitted. -/
theorem answer_resubmission_preserves_first_answer (p : QuizPass)
    (item : QuizItem) (answer : Int) (now : Nat) (g : Int) (t : Nat)
    (hcur : p.current_item = Except.ok item)
    (hg : item.given_answer = some g)
    (ht : item.answered_at = some t) :
    callback_query_answer_step p answer now = Except.ok p := by
  have hans : item.is_answered = true := by
    simp [QuizItem.is_answered, hg, ht]
  unfold callback_query_answer_step
  rw [hcur]
  simp [bind, Except.bind, hans, pure, Except.pure]

/-- Witness for C1: user 7's current item was answered with 0 at time 100;
re-submitting answer 1 at time 999 changes nothing. -/
theorem answer_resubmission_preserves_first_answer_witness :
    callback_query_answer_step samplePass 1 999 = Except.ok samplePass :=
  answer_resubmission_preserves_first_answer samplePass answeredItem 1 999 0 100
    rfl rfl rfl

/-- C6: when the inactivity timer fires, the kick-then-unban pair is issued
exactly when the user owns no quiz pass at all; as soon as any pass exists —
finished or not — the firing performs no platform action. -/
theorem inactivity_timer_kicks_iff_no_pass (passes : List QuizPass)
    (gid uid : Int) :
    (job_kick_if_inactive passes gid uid =
        [BotAction.kick_chat_member gid uid, BotAction.unban_chat_member gid uid] ↔
      ∀ p ∈ passes, p.user_id ≠ uid) ∧
    ((∃ p ∈ passes, p.user_id = uid) →
      job_kick_if_inactive passes gid uid = []) := by
  constructor
  · constructor
    · intro h
      rw [← get_active_quizpass_eq_none_iff]
      rcases hga : get_active_quizpass passes uid with _ | qp
      · rfl
      · unfold job_kick_if_inactive at h
        rw [hga] at h
        exact absurd h (by simp)
    · intro h
      have hnone : get_active_quizpass passes uid = none :=
        (get_active_quizpass_eq_none_iff passes uid).mpr h
      simp [job_kick_if_inactive, hnone]
  · intro ⟨p, hp, hpu⟩
    rcases hga : get_active_quizpass passes uid with _ | qp
    · exact absurd hpu
        (((get_active_quizpass_eq_none_iff passes uid).mp hga) p hp)
    · simp [job_kick_if_inactive, hga]

/-- Witness for C6: user 7 has a (still unfinished) pass, so the timer firing
performs no action at all. -/
theorem inactivity_timer_kicks_iff_no_pass_witness :
    job_kick_if_inactive [samplePass] 10 7 = [] :=
  (inactivity_timer_kicks_iff_no_pass [samplePass] 10 7).2
    ⟨samplePass, by simp, by decide⟩

/-- C9: a kick or ban command from a caller whose chat-member status is
neither `'creator'` (owner) nor `'admin'` only sends the fixed denial
message: no kick, no unban, and the stored passes are untouched. -/
theorem nonadmin_removal_command_denied (passes : List QuizPass) (gid : Int)
    (status : String) (target : Option (Int × String))
    (hs : status ≠ "creator") (ha : status ≠ "admin") :
    command_kick passes gid status target =
        ([BotAction.send_message gid MessageText.unauthorized], passes) ∧
    command_ban passes gid status target =
        ([BotAction.send_message gid MessageText.unauthorized], passes) := by
  have hadm : is_admin status = false := by
    simp [is_admin, hs, ha]
  constructor <;> simp [command_kick, command_ban, hadm]

/-- Witness for C9: a plain member targeting user 7 gets "Haha, no." from
both commands, and user 7's pass row survives. -/
theorem nonadmin_removal_command_denied_witness :
    command_kick [samplePass] 10 "member" (some (7, "Alice")) =
        ([BotAction.send_message 10 MessageText.unauthorized], [samplePass]) ∧
    command_ban [samplePass] 10 "member" (some (7, "Alice")) =
        ([BotAction.send_message 10 MessageText.unauthorized], [samplePass]) :=
  nonadmin_removal_command_denied [samplePass] 10 "member" (some (7, "Alice"))
    (by decide) (by decide)

/-- When every entry from position `i` on is valid, the load loop returns all
of them, converted in order. -/
theorem load_questions_from_ok (i : Nat) (ds : List QuestionDict)
    (h : ∀ d ∈ ds, 0 ≤ d.answer ∧ d.answer < (d.options.length : Int)) :
    load_questions_from i ds = Except.ok (ds.map mkQuestion) := by
  induction ds generalizing i with
  | nil => rfl
  | cons d rest ih =>
    have hd := h d (List.mem_cons_self d rest)
    have hv : (mkQuestion d).validate = Except.ok () := by
      have hc : ¬((mkQuestion d).answer < 0 ∨
          (mkQuestion d).answer ≥ ((mkQuestion d).options.length : Int)) := by
        simp only [mkQuestion]
        omega
      simp [Question.validate, hc]
    have hrest := ih (i + 1) (fun e he => h e (List.mem_cons_of_mem d he))
    simp [load_questions_from, hv, hrest, bind, Except.bind, pure, Except.pure]

/-- When the first invalid entry sits at 0-based position `j`, the load loop
started at `i` aborts with 1-based position `i + j + 1` and that entry's
text, returning no list at all. -/
theorem load_questions_from_err (i j : Nat) (ds : List QuestionDict)
    (d : QuestionDict)
    (hpre : ∀ e ∈ ds.take j, 0 ≤ e.answer ∧ e.answer < (e.options.length : Int))
    (hj : ds.get? j = some d)
    (hbad : d.answer < 0 ∨ (d.options.length : Int) ≤ d.answer) :
    load_questions_from i ds = Except.error ⟨i + j + 1, d.question⟩ := by
  induction ds generalizing i j with
  | nil => simp at hj
  | cons e rest ih =>
    cases j with
    | zero =>
      have hed : e = d := by simpa using hj
      subst hed
      have hv : (mkQuestion e).validate =
          Except.error "answer is out of range" := by
        have hc : (mkQuestion e).answer < 0 ∨
            (mkQuestion e).answer ≥ ((mkQuestion e).options.length : Int) := by
          simp only [mkQuestion]
          omega
        simp [Question.validate, hc]
      simp only [mkQuestion] at hv
      simp [load_questions_from, mkQuestion, hv]
    | succ j' =>
      have he := hpre e (by simp)
      have hv : (mkQuestion e).validate = Except.ok () := by
        have hc : ¬((mkQuestion e).answer < 0 ∨
            (mkQuestion e).answer ≥ ((mkQuestion e).options.length : Int)) := by
          simp only [mkQuestion]
          omega
        simp [Question.validate, hc]
      have hrest := ih (i + 1) j'
        (fun x hx => hpre x (by simpa using List.mem_cons_of_mem e hx))
        (by simpa using hj)
      have harith : i + 1 + j' + 1 = i + (j' + 1) + 1 := by omega
      rw [harith] at hrest
      simp [load_questions_from, hv, hrest, bind, Except.bind]

/-- C8: loading the question bank returns the complete question sequence when
every entry's correct-answer index is in `[0, len(options))`; as soon as some
entry is out of range, the whole load fails with the error naming the first
offending entry by its 1-based position (and its text), so no partial list is
ever produced. -/
theorem load_questions_all_or_error (ds : List QuestionDict) :
    ((∀ d ∈ ds, 0 ≤ d.answer ∧ d.answer < (d.options.length : Int)) →
      load_questions ds = Except.ok (ds.map mkQuestion)) ∧
    (∀ j d,
      (∀ e ∈ ds.take j, 0 ≤ e.answer ∧ e.answer < (e.options.length : Int)) →
      ds.get? j = some d →
      (d.answer < 0 ∨ (d.options.length : Int) ≤ d.answer) →
      load_questions ds = Except.error ⟨j + 1, d.question⟩) := by
  constructor
  · exact load_questions_from_ok 0 ds
  · intro j d hpre hj hbad
    have h := load_questions_from_err 0 j ds d hpre hj hbad
    simpa [load_questions] using h

/-- Witness for C8: a bank whose second entry has answer index 5 with two
options fails naming question 2, with no question list. -/
theorem load_questions_all_or_error_witness :
    load_questions sampleDicts = Except.error ⟨2, "q2"⟩ :=
  (load_questions_all_or_error sampleDicts).2 1 ⟨"q2", ["a", "b"], 5⟩
    (by decide) rfl (by decide)

/-- C3: when the user's active pass exists and is not finished, pressing
"start quiz" creates no new pass and sends no fresh quiz: the pass store is
unchanged and the only action re-displays the existing attempt's current
question (the blocked-because-already-started outcome). -/
theorem start_quiz_unfinished_pass_blocked (passes : List QuizPass)
    (user_id message_id : Int) (now whf : Nat) (new_pass qp : QuizPass)
    (hactive : get_active_quizpass passes user_id = some qp)
    (hunf : qp.is_finished = false) :
    callback_query_start_quiz passes user_id message_id now whf new_pass =
      Except.ok (passes, [BotAction.display_quizpass message_id user_id qp]) := by
  have h1 : on_start_quiz passes user_id now whf = Except.ok (true, []) := by
    simp [on_start_quiz, hactive, hunf]
  simp [callback_query_start_quiz, h1, hactive, hunf, bind, Except.bind,
    pure, Except.pure]

/-- Witness for C3: user 7's unfinished pass is only re-displayed; the store
keeps exactly the old pass. -/
theorem start_quiz_unfinished_pass_blocked_witness :
    callback_query_start_quiz [samplePass] 7 5 1000 24 freshPass =
      Except.ok ([samplePass], [BotAction.display_quizpass 5 7 samplePass]) :=
  start_quiz_unfinished_pass_blocked [samplePass] 7 5 1000 24 freshPass samplePass
    (by decide) (by decide)

/-- C5: for an active pass that is finished and failed (with its answer
timestamps present), a restart attempt is blocked iff `now` minus the last
answer time is below the configured window `whf` hours; the blocking message
reports the remaining wait rounded up to whole hours (the reported `wh`
satisfies `(wh - 1) * 3600 < remaining ≤ wh * 3600`); once the window has
fully elapsed, the restart goes through: a fresh pass is appended and
displayed, and the old pass row remains in the store. -/
theorem failed_pass_restart_cooldown (passes : List QuizPass)
    (user_id message_id : Int) (now whf : Nat) (new_pass qp : QuizPass) (t : Nat)
    (hactive : get_active_quizpass passes user_id = some qp)
    (hfin : qp.is_finished = true)
    (hfail : qp.has_passed = false)
    (hlast : qp.last_answer_at = some t) :
    ((now : Int) - (t : Int) < (whf : Int) * 3600 →
      ∃ wh : Nat,
        callback_query_start_quiz passes user_id message_id now whf new_pass =
          Except.ok (passes, [BotAction.send_message user_id
            (MessageText.failed qp.correct_given qp.quizitems.length
              qp.correct_required wh)]) ∧
        (whf : Int) * 3600 - ((now : Int) - (t : Int)) ≤ (wh : Int) * 3600 ∧
        ((wh : Int) - 1) * 3600 < (whf : Int) * 3600 - ((now : Int) - (t : Int))) ∧
    ((whf : Int) * 3600 ≤ (now : Int) - (t : Int) →
      callback_query_start_quiz passes user_id message_id now whf new_pass =
        Except.ok (passes ++ [new_pass],
          [BotAction.display_quizpass message_id user_id new_pass]) ∧
      qp ∈ passes ++ [new_pass]) := by
  constructor
  · intro hlt
    refine ⟨(((whf : Int) * 3600 - ((now : Int) - (t : Int))).toNat + 3599) / 3600,
      ?_, ?_, ?_⟩
    · have h1 : on_start_quiz passes user_id now whf =
          Except.ok (false, [BotAction.send_message user_id
            (MessageText.failed qp.correct_given qp.quizitems.length
              qp.correct_required
              ((((whf : Int) * 3600 - ((now : Int) - (t : Int))).toNat + 3599) /
                3600))]) := by
        simp [on_start_quiz, hactive, hfin, hfail, hlast, hlt]
      simp [callback_query_start_quiz, h1, bind, Except.bind, pure, Except.pure]
    · have hpos : (0 : Int) ≤ (whf : Int) * 3600 - ((now : Int) - (t : Int)) := by
        omega
      have hns := Int.toNat_of_nonneg hpos
      omega
    · have hpos : (0 : Int) ≤ (whf : Int) * 3600 - ((now : Int) - (t : Int)) := by
        omega
      have hns := Int.toNat_of_nonneg hpos
      omega
  · intro hge
    have hnlt : ¬((now : Int) - (t : Int) < (whf : Int) * 3600) := not_lt.mpr hge
    have h1 : on_start_quiz passes user_id now whf = Except.ok (true, []) := by
      simp [on_start_quiz, hactive, hfin, hfail, hlast, hnlt]
    constructor
    · simp [callback_query_start_quiz, h1, hactive, hfin, bind, Except.bind,
        pure, Except.pure]
    · exact List.mem_append_left _
        ((get_active_quizpass_mem passes user_id qp hactive).1)

/-- Witness for C5: user 8 failed at time 100; retrying at time 1000 with a
1-hour window is still 2700 s short, so the restart is blocked reporting a
1-hour wait. -/
theorem failed_pass_restart_cooldown_witness :
    ∃ wh : Nat,
      callback_query_start_quiz [failedPass] 8 5 1000 1 freshPass =
        Except.ok ([failedPass], [BotAction.send_message 8
          (MessageText.failed failedPass.correct_given
            failedPass.quizitems.length failedPass.correct_required wh)]) ∧
      ((1 : Nat) : Int) * 3600 - (((1000 : Nat) : Int) - ((100 : Nat) : Int)) ≤
        (wh : Int) * 3600 ∧
      ((wh : Int) - 1) * 3600 <
        ((1 : Nat) : Int) * 3600 - (((1000 : Nat) : Int) - ((100 : Nat) : Int)) :=
  (failed_pass_restart_cooldown [failedPass] 8 5 1000 1 freshPass failedPass 100
    (by decide) (by decide) (by decide) (by decide)).1 (by decide)

/-- C2 (evaluating the code at the failing input): `create_quizpass` for two
two-option questions issues seven commits; when the environment fails at the
third (while inserting the second item or later work is lost), the durable
store already holds the pass row and exactly one of the two item rows — a
partially-constructed pass is visible, not the all-or-nothing outcome; only
after all seven commits are both item rows present. -/
theorem create_quizpass_partial_commit_visible :
    has_pass_row (committed_after
      (create_quizpass_commits 1
        [⟨"q1", ["a", "b"], 0⟩, ⟨"q2", ["a", "b"], 1⟩] 1) 3) = true ∧
    item_row_count (committed_after
      (create_quizpass_commits 1
        [⟨"q1", ["a", "b"], 0⟩, ⟨"q2", ["a", "b"], 1⟩] 1) 3) = 1 ∧
    (create_quizpass_commits 1
      [⟨"q1", ["a", "b"], 0⟩, ⟨"q2", ["a", "b"], 1⟩] 1).length = 7 ∧
    item_row_count (committed_after
      (create_quizpass_commits 1
        [⟨"q1", ["a", "b"], 0⟩, ⟨"q2", ["a", "b"], 1⟩] 1) 7) = 2 := by
  decide
